import Mathlib

/-!
# Verification of the roguelike combat / progression core

Shallow embedding of the combat and progression engine of the repository
(`src/object.rs`, `src/fighter.rs`, `src/game_state.rs`) together with
theorems settling the specification claims about it.

Rust `i32` values are modelled as `Int` (no claim here exercises wrap-around),
`Option<T>` as `Option`, and a Rust panic (`unwrap`, `unreachable!`, index out
of bounds, the rejected dual-borrow) as a `none` result of the enclosing
operation.  External collaborators that live outside the three given source
files (message log, world blocking query, key handling, AI decisions, the
level-up choice menu, `mut_two`) are modelled from the spec, each marked as
such in its doc comment.
-/

namespace Roguelike

/-- The tcod color constants used by the three source files, as an enum. -/
inductive Color
  | WHITE
  | RED
  | DARK_RED
  | ORANGE
  | YELLOW
  | VIOLET
  | LIGHT_GREEN
  | LIGHT_YELLOW
deriving DecidableEq

/-- `Messages` (module `game_io`, not under `src/`): the ordered message log,
a vector of text/color pairs. -/
abbrev Messages := List (String × Color)

/-- Modelled from the spec: `MessageLog.add` (module `game_io`, not under
`src/`) — §6: "append-only ordered log"; a new message is appended at the
end. -/
def MessageLog.add (log : Messages) (msg : String) (c : Color) : Messages :=
  log ++ [(msg, c)]

/-- `DeathCallback` from `src/fighter.rs`: the closed variant selecting the
death behaviour. -/
inductive DeathCallback
  | Player
  | Monster
deriving DecidableEq

/-- `Fighter` from `src/fighter.rs`: combat-related properties. -/
structure Fighter where
  hp : Int
  base_max_hp : Int
  base_defense : Int
  base_power : Int
  on_death : DeathCallback
  xp : Int
deriving DecidableEq

/-- `Ai` lives in module `ai` (not under `src/`); the code given here only
observes `is_some` on it, so it is modelled as a tag. -/
inductive Ai
  | tag
deriving DecidableEq

/-- `Item` lives outside `src/`; only `is_some` is observed here. -/
inductive Item
  | tag
deriving DecidableEq

/-- `Equipment` lives outside `src/`; the fields below are the ones read by
`src/object.rs` (`equipped`, `slot`, the three bonus fields). -/
structure Equipment where
  equipped : Bool
  slot : String
  power_bonus : Int
  defense_bonus : Int
  max_hp_bonus : Int
deriving DecidableEq

/-- `Object` from `src/object.rs`: the base structure for all entities. -/
structure Object where
  x : Int
  y : Int
  name : String
  blocks : Bool
  alive : Bool
  chr : Char
  color : Color
  fighter : Option Fighter
  ai : Option Ai
  item : Option Item
  always_visible : Bool
  level : Int
  equipment : Option Equipment
deriving DecidableEq

/-- `GameState` from `src/game_state.rs`.  The `world` field is an external
collaborator struct (module `world`, not under `src/`); it is only ever passed
to the external `is_blocked` query, which is modelled as a function parameter
of the movement primitives, so the field is dropped here. -/
structure GameState where
  log : Messages
  inventory : List Object
  dungeon_level : Nat
deriving DecidableEq

/-- `Object::pos`. -/
def Object.pos (o : Object) : Int × Int := (o.x, o.y)

/-- `Object::set_pos`. -/
def Object.set_pos (o : Object) (x y : Int) : Object := { o with x := x, y := y }

/-- `Object::get_all_equipped`: only the object named "player" has an
inventory; equipped items are collected from it.  The Rust
`filter(map_or(false, equipped)).map(unwrap)` chain is rendered as the
equivalent `filterMap` over the filtered list. -/
def Object.get_all_equipped (o : Object) (gs : GameState) : List Equipment :=
  if o.name = "player" then
    ((gs.inventory.filter fun item =>
        (item.equipment.map Equipment.equipped).getD false).filterMap
      fun item => item.equipment)
  else []

/-- `Object::power`: base power (0 without a Fighter) plus equipped power
bonuses. -/
def Object.power (o : Object) (gs : GameState) : Int :=
  (o.fighter.map Fighter.base_power).getD 0
    + ((o.get_all_equipped gs).map Equipment.power_bonus).sum

/-- `Object::defense`: base defense (0 without a Fighter) plus equipped
defense bonuses. -/
def Object.defense (o : Object) (gs : GameState) : Int :=
  (o.fighter.map Fighter.base_defense).getD 0
    + ((o.get_all_equipped gs).map Equipment.defense_bonus).sum

/-- `Object::max_hp`: base max hp (0 without a Fighter) plus equipped max-hp
bonuses. -/
def Object.max_hp (o : Object) (gs : GameState) : Int :=
  (o.fighter.map Fighter.base_max_hp).getD 0
    + ((o.get_all_equipped gs).map Equipment.max_hp_bonus).sum

/-- `player_death` from `src/fighter.rs`: log "You died!", turn the player
into a corpse glyph.  The Fighter component is NOT cleared. -/
def player_death (player : Object) (messages : Messages) : Object × Messages :=
  let messages := MessageLog.add messages "You died!" Color.RED
  ({ player with chr := '%', color := Color.DARK_RED }, messages)

/-- `monster_death` from `src/fighter.rs`.  The message is formatted with
`monster.fighter.unwrap().xp`, so a missing Fighter is a panic (`none`);
otherwise the corpse transformation clears `blocks`, `fighter`, `ai` and
renames to "remains of {name}". -/
def monster_death (monster : Object) (messages : Messages) :
    Option (Object × Messages) :=
  match monster.fighter with
  | none => none
  | some f =>
    let messages := MessageLog.add messages
      (monster.name ++ " is dead! You gain " ++ toString f.xp ++ " XP")
      Color.ORANGE
    some ({ monster with
              chr := '%'
              color := Color.DARK_RED
              blocks := false
              fighter := none
              ai := none
              name := "remains of " ++ monster.name },
          messages)

/-- `DeathCallback::callback` from `src/fighter.rs`: dispatch on the closed
variant. -/
def DeathCallback.callback (dc : DeathCallback) (o : Object)
    (messages : Messages) : Option (Object × Messages) :=
  match dc with
  | .Player => some (player_death o messages)
  | .Monster => monster_death o messages

/-- First block of `Object::take_damage` (`src/object.rs`): "apply damage if
possible" — hp is reduced only when a Fighter is present and damage is
positive. -/
def Object.apply_damage (o : Object) (damage : Int) : Object :=
  match o.fighter with
  | some f =>
    if damage > 0 then { o with fighter := some { f with hp := f.hp - damage } }
    else o
  | none => o

/-- Second block of `Object::take_damage` (`src/object.rs`): "check for
death, trigger death callback function".  `fighter` here is the Rust `Copy`
of the component taken before the callback runs, so the returned xp is the
value immediately before any clearing done by the callback.  Note the guard
is only `fighter.hp <= 0` — `alive` is not consulted. -/
def Object.death_check (o : Object) (gs : GameState) :
    Option (Object × GameState × Option Int) :=
  match o.fighter with
  | some f =>
    if f.hp ≤ 0 then
      let o := { o with alive := false }
      match f.on_death.callback o gs.log with
      | none => none
      | some (o, log) => some (o, { gs with log := log }, some f.xp)
    else some (o, gs, none)
  | none => some (o, gs, none)

/-- `Object::take_damage` (`src/object.rs`): damage application followed by
the death check. -/
def Object.take_damage (o : Object) (damage : Int) (gs : GameState) :
    Option (Object × GameState × Option Int) :=
  (o.apply_damage damage).death_check gs

/-- `Object::attack` (`src/object.rs`).  Result is
`(attacker, target, game_state)` after the attack; `none` models the panic of
`self.fighter.as_mut().unwrap()` when xp is yielded to a Fighter-less
attacker (or a panic inside `take_damage`). -/
def Object.attack (o : Object) (target : Object) (gs : GameState) :
    Option (Object × Object × GameState) :=
  let damage := o.power gs - target.defense gs
  if damage > 0 then
    let msg := o.name ++ " attacks " ++ target.name ++ " for "
      ++ toString damage ++ " hit points."
    let gs := { gs with log := MessageLog.add gs.log msg Color.WHITE }
    match target.take_damage damage gs with
    | none => none
    | some (target, gs, xpOpt) =>
      match xpOpt with
      | some xp =>
        match o.fighter with
        | none => none
        | some f =>
          some ({ o with fighter := some { f with xp := f.xp + xp } }, target, gs)
      | none => some (o, target, gs)
  else
    let msg := o.name ++ " attacks " ++ target.name ++ " but it has no effect!"
    some (o, target, { gs with log := MessageLog.add gs.log msg Color.WHITE })

/-- `PLAYER` from `src/game_state.rs`: index of the player in the object
vector. -/
def PLAYER : Nat := 0

/-- `LEVEL_UP_BASE` from `src/game_state.rs`. -/
def LEVEL_UP_BASE : Int := 200

/-- `LEVEL_UP_FACTOR` from `src/game_state.rs`. -/
def LEVEL_UP_FACTOR : Int := 150

/-- Model of `Iterator::position` over the object vector, used by
`player_move_or_attack`: index of the first element satisfying the
predicate. -/
def position (p : Object → Bool) : List Object → Option Nat
  | [] => none
  | o :: rest => if p o then some 0 else (position p rest).map (· + 1)

/-- `move_by` from `src/game_state.rs`.  The external `is_blocked` collaborator
(module `world`, not under `src/`) is a parameter; an out-of-range index is
the Rust indexing panic (`none`). -/
def move_by (is_blocked : List Object → Int → Int → Bool)
    (objects : List Object) (id : Nat) (dx dy : Int) : Option (List Object) :=
  match objects[id]? with
  | none => none
  | some o =>
    if is_blocked objects (o.x + dx) (o.y + dy) then some objects
    else some (objects.set id (o.set_pos (o.x + dx) (o.y + dy)))

/-- Exact-real model of the f32 step of `move_towards`
(`src/game_state.rs`): `(d as f32 / ((s as f32).sqrt())).round() as i32`,
where `s = dx*dx + dy*dy` and `d` is one axis delta (so `d * d ≤ s`).
When `s = 0` the code divides `0.0` by `0.0`, producing NaN; `NaN.round()`
is NaN and the saturating Rust `as i32` cast maps NaN to 0.
When `s ≠ 0`, `0 ≤ abs d / sqrt s ≤ 1`, so the rounded value is -1, 0 or 1:
it is 0 exactly when `abs d / sqrt s < 1/2`, i.e. `4 * d * d < s` (f32
`round` rounds half away from zero). -/
def f32_unit_step (d s : Int) : Int :=
  if s = 0 then 0
  else if 4 * d * d < s then 0
  else if 0 ≤ d then 1 else -1

/-- `move_towards` from `src/game_state.rs`: normalize the delta to a unit
grid step and delegate to `move_by`. -/
def move_towards (is_blocked : List Object → Int → Int → Bool)
    (objects : List Object) (id : Nat) (target_x target_y : Int) :
    Option (List Object) :=
  match objects[id]? with
  | none => none
  | some o =>
    let dx := target_x - o.x
    let dy := target_y - o.y
    let s := dx * dx + dy * dy
    move_by is_blocked objects id (f32_unit_step dx s) (f32_unit_step dy s)

/-- Modelled from the spec: `mut_two` (module `util`, not under `src/`) —
§5: the dual mutable accessor "must reject (fatal) a request for two views at
equal indices, and must never allow a single slot to be viewed as both
attacker and target".  `none` is the fatal path; out-of-range indices are
likewise fatal. -/
def mut_two (objects : List Object) (first second : Nat) :
    Option (Object × Object) :=
  if first = second then none
  else
    match objects[first]?, objects[second]? with
    | some a, some b => some (a, b)
    | _, _ => none

/-- `player_move_or_attack` from `src/game_state.rs`.  The two mutable views
produced by `mut_two` are written back at their indices after the attack. -/
def player_move_or_attack (is_blocked : List Object → Int → Int → Bool)
    (objects : List Object) (gs : GameState) (dx dy : Int) :
    Option (List Object × GameState) :=
  match objects[PLAYER]? with
  | none => none
  | some p =>
    let x := p.x + dx
    let y := p.y + dy
    let target_id := position
      (fun o => o.fighter.isSome && (o.x == x && o.y == y)) objects
    match target_id with
    | some target_id =>
      match mut_two objects PLAYER target_id with
      | none => none
      | some (player, target) =>
        match player.attack target gs with
        | none => none
        | some (player, target, gs) =>
          some ((objects.set PLAYER player).set target_id target, gs)
    | none =>
      (move_by is_blocked objects PLAYER dx dy).map fun objects => (objects, gs)

/-- `level_up` from `src/game_state.rs`.  The external choice menu (module
`game_io`) is re-queried in a `while` loop until it returns `Some`; the
`choice` parameter stands for that eventually-obtained value.  The
`unreachable!()` arm and the `as_mut().unwrap()` / indexing panics are
`none`. -/
def level_up (objects : List Object) (gs : GameState) (choice : Nat) :
    Option (List Object × GameState) :=
  match objects[PLAYER]? with
  | none => none
  | some player =>
    let level_up_xp := LEVEL_UP_BASE + player.level * LEVEL_UP_FACTOR
    if level_up_xp ≤ (player.fighter.map Fighter.xp).getD 0 then
      let player := { player with level := player.level + 1 }
      let msg := "Your battle skills grow stringer! You reached level "
        ++ toString player.level ++ "!"
      let gs := { gs with log := MessageLog.add gs.log msg Color.YELLOW }
      match player.fighter with
      | none => none
      | some f =>
        let f := { f with xp := f.xp - level_up_xp }
        match choice with
        | 0 =>
          let f := { f with base_max_hp := f.base_max_hp + 20, hp := f.hp + 20 }
          some (objects.set PLAYER { player with fighter := some f }, gs)
        | 1 =>
          let f := { f with base_power := f.base_power + 1 }
          some (objects.set PLAYER { player with fighter := some f }, gs)
        | 2 =>
          let f := { f with base_defense := f.base_defense + 1 }
          some (objects.set PLAYER { player with fighter := some f }, gs)
        | _ => none
    else some (objects, gs)

/-- Modelled from the spec: `PlayerAction` (module `game_io`, not under
`src/`) — §4.4: the player action resolves to one of MovedOrAttacked
(`TookTurn`), `DidntTakeTurn`, `Exit`. -/
inductive PlayerAction
  | TookTurn
  | DidntTakeTurn
  | Exit
deriving DecidableEq

/-- The AI loop of `game_loop` (`src/game_state.rs`): `for id in
0..objects.len() { if objects[id].ai.is_some() { ai_take_turn(...) } }`.
`ai_take_turn` (module `ai`, not under `src/`) is an abstract state
transformer parameter.  Besides the final state, the list of ids on which the
AI collaborator was actually invoked is returned as a trace. -/
def ai_loop (step : Nat → List Object → GameState → List Object × GameState) :
    List Nat → List Object → GameState →
      Option (List Object × GameState × List Nat)
  | [], objects, gs => some (objects, gs, [])
  | id :: rest, objects, gs =>
    match objects[id]? with
    | none => none
    | some obj =>
      if obj.ai.isSome then
        match ai_loop step rest (step id objects gs).1 (step id objects gs).2 with
        | none => none
        | some (objects2, gs2, tr) => some (objects2, gs2, id :: tr)
      else ai_loop step rest objects gs

/-- The player phase of one `game_loop` iteration (`src/game_state.rs`):
the level-up check followed by the player action.  `handle_keys` (module
`game_io`, not under `src/`) is an abstract parameter that resolves the
player action, mutating objects and game state. -/
def player_phase
    (handle_keys : List Object → GameState →
      List Object × GameState × PlayerAction)
    (choice : Nat) (objects : List Object) (gs : GameState) :
    Option (List Object × GameState × PlayerAction) :=
  match level_up objects gs choice with
  | none => none
  | some (objects, gs) => some (handle_keys objects gs)

/-- One iteration body of `game_loop` (`src/game_state.rs`) from the level-up
check on: player phase, then — unless the action was `Exit` — the AI loop,
gated on `objects[PLAYER].alive && player_action != PlayerAction::DidntTakeTurn`
(the player indexing happens before the gate, as in the source).  Rendering
and input polling are external collaborators with no effect on this state.
The result carries the resolved player action and the trace of AI
invocations. -/
def run_tick
    (handle_keys : List Object → GameState →
      List Object × GameState × PlayerAction)
    (step : Nat → List Object → GameState → List Object × GameState)
    (choice : Nat) (objects : List Object) (gs : GameState) :
    Option (List Object × GameState × PlayerAction × List Nat) :=
  match player_phase handle_keys choice objects gs with
  | none => none
  | some (objects, gs, action) =>
    if action = PlayerAction.Exit then some (objects, gs, action, [])
    else
      match objects[PLAYER]? with
      | none => none
      | some p =>
        if p.alive && !(action = PlayerAction.DidntTakeTurn : Bool) then
          match ai_loop step (List.range objects.length) objects gs with
          | none => none
          | some (objects2, gs2, tr) => some (objects2, gs2, action, tr)
        else some (objects, gs, action, [])

/-! ## Concrete fixtures used by counterexamples and witnesses -/

/-- A player Fighter about to die: 1 hp, 5 xp, Player death variant. -/
def basePlayerFighter : Fighter :=
  { hp := 1, base_max_hp := 100, base_defense := 0, base_power := 2,
    on_death := DeathCallback.Player, xp := 5 }

/-- A concrete player object (as spawned by `new_game`, with low hp). -/
def cPlayer : Object :=
  { x := 0, y := 0, name := "player", blocks := true, alive := true,
    chr := '@', color := Color.WHITE, fighter := some basePlayerFighter,
    ai := none, item := none, always_visible := false, level := 1,
    equipment := none }

/-- A concrete monster Fighter: power 3, 0 xp, Monster death variant. -/
def cMonsterFighter : Fighter :=
  { hp := 10, base_max_hp := 10, base_defense := 0, base_power := 3,
    on_death := DeathCallback.Monster, xp := 0 }

/-- A concrete monster object. -/
def cMonster : Object :=
  { x := 1, y := 0, name := "microbe", blocks := true, alive := true,
    chr := 'm', color := Color.WHITE, fighter := some cMonsterFighter,
    ai := some Ai.tag, item := none, always_visible := false, level := 1,
    equipment := none }

/-- An initial game state with an empty log and empty inventory. -/
def gs0 : GameState := { log := [], inventory := [], dungeon_level := 1 }

/-- The already-dead player: `alive == false`, Fighter retained with hp ≤ 0
(exactly the state `take_damage` leaves a dead player in). -/
def deadPlayer : Object :=
  { cPlayer with
    alive := false
    chr := '%'
    color := Color.DARK_RED
    fighter := some { basePlayerFighter with hp := -2 } }

/-! ## C1 -/

/-- C1 counterexample: the claim says the death transition returns `None`
when the dying entity's `on_death` variant is `Player`, so "a dying player
never yields experience to its attacker".  In the code the `Some(fighter.xp)`
return does not inspect the variant and `player_death` does not clear the
Fighter: when `cMonster` (power 3) attacks `cPlayer` (defense 0, hp 1, xp 5,
Player variant), the player dies and the monster's xp rises from 0 to 5. -/
theorem C1_counterexample :
    basePlayerFighter.on_death = DeathCallback.Player ∧
    (cMonster.attack cPlayer gs0).map (fun r => r.1.fighter.map Fighter.xp)
      = some (some 5) := ⟨rfl, rfl⟩

/-- C1 (amended): `take_damage` returns `Some(fighter.xp)` exactly when the
entity carries a Fighter whose hp is ≤ 0 after the damage-application step,
regardless of the `on_death` variant (a dying player yields its xp to the
attacker); the return is `None` exactly when the entity has no Fighter or the
post-damage hp is positive. -/
theorem C1_take_damage_xp (o : Object) (damage : Int) (gs : GameState) :
    (o.fighter = none → o.take_damage damage gs = some (o, gs, none)) ∧
    (∀ f : Fighter, o.fighter = some f →
      (if damage > 0 then f.hp - damage else f.hp) ≤ 0 →
      ∃ o2 gs2, o.take_damage damage gs = some (o2, gs2, some f.xp)) ∧
    (∀ f : Fighter, o.fighter = some f →
      0 < (if damage > 0 then f.hp - damage else f.hp) →
      o.take_damage damage gs =
        some ({ o with
                fighter := some
                  { f with hp := if damage > 0 then f.hp - damage else f.hp } },
              gs, none)) := by
  refine ⟨fun hn => ?_, fun f hf hle => ?_, fun f hf hpos => ?_⟩
  · simp [Object.take_damage, Object.apply_damage, Object.death_check, hn]
  · by_cases hd : damage > 0
    · rw [if_pos hd] at hle
      cases hv : f.on_death with
      | Player =>
        simp only [Object.take_damage, Object.apply_damage, Object.death_check,
          hf, if_pos hd, hle, if_true, DeathCallback.callback, hv, player_death]
        exact ⟨_, _, rfl⟩
      | Monster =>
        simp only [Object.take_damage, Object.apply_damage, Object.death_check,
          hf, if_pos hd, hle, if_true, DeathCallback.callback, hv, monster_death]
        exact ⟨_, _, rfl⟩
    · rw [if_neg hd] at hle
      cases hv : f.on_death with
      | Player =>
        simp only [Object.take_damage, Object.apply_damage, Object.death_check,
          hf, if_neg hd, hle, if_true, DeathCallback.callback, hv, player_death]
        exact ⟨_, _, rfl⟩
      | Monster =>
        simp only [Object.take_damage, Object.apply_damage, Object.death_check,
          hf, if_neg hd, hle, if_true, DeathCallback.callback, hv, monster_death]
        exact ⟨_, _, rfl⟩
  · by_cases hd : damage > 0
    · rw [if_pos hd] at hpos
      rw [if_pos hd]
      simp only [Object.take_damage, Object.apply_damage, Object.death_check,
        hf, if_pos hd, if_neg (not_le.mpr hpos)]
    · rw [if_neg hd] at hpos
      rw [if_neg hd]
      simp only [Object.take_damage, Object.apply_damage, Object.death_check,
        hf, if_neg hd, if_neg (not_le.mpr hpos)]
      have hfe : ({ f with hp := f.hp } : Fighter) = f := rfl
      rw [hfe, ← hf]

/-- C1 witness: the amended theorem applied to the concrete dying player. -/
theorem C1_take_damage_xp_witness :
    ∃ o2 gs2, cPlayer.take_damage 3 gs0 =
      some (o2, gs2, some basePlayerFighter.xp) :=
  (C1_take_damage_xp cPlayer 3 gs0).2.1 basePlayerFighter rfl (by decide)

/-! ## C2 -/

/-- C2 counterexample: the claim says the death transition fires only if
`alive` is currently true, and re-invoking `take_damage` on an already-dead
entity changes nothing, fires no callback, and returns `None`.  The code
never consults `alive`: on the dead player (`alive == false`, Fighter
retained, hp = -2) a further `take_damage 0` fires the Player death callback
again (the log grows from 0 to 1 messages) and returns `Some 5`. -/
theorem C2_counterexample :
    deadPlayer.alive = false ∧
    (deadPlayer.take_damage 0 gs0).map (fun r => (r.2.1.log.length, r.2.2))
      = some (1, some 5) := ⟨rfl, rfl⟩

/-- C2 (amended): the death branch fires iff the entity carries a Fighter
with hp ≤ 0 after damage application — `alive` is never consulted.
Re-invocation on a dead monster is a no-op returning `None` only because its
Fighter was cleared; re-invocation on a dead player (Fighter retained,
hp ≤ 0) fires the death callback again, appends a further log message, and
returns `Some(xp)` once more. -/
theorem C2_take_damage_reinvocation (o : Object) (damage : Int)
    (gs : GameState) :
    (o.fighter = none → o.take_damage damage gs = some (o, gs, none)) ∧
    (∀ f : Fighter, o.fighter = some f → o.alive = false → f.hp ≤ 0 →
      damage ≤ 0 →
      ∃ o2 msg c, o.take_damage damage gs =
        some (o2, { gs with log := gs.log ++ [(msg, c)] }, some f.xp)) := by
  refine ⟨fun hn => ?_, fun f hf _ hle hdle => ?_⟩
  · simp [Object.take_damage, Object.apply_damage, Object.death_check, hn]
  · have hd : ¬ damage > 0 := not_lt.mpr hdle
    cases hv : f.on_death with
    | Player =>
      simp only [Object.take_damage, Object.apply_damage, Object.death_check,
        hf, if_neg hd, hle, if_true, DeathCallback.callback, hv, player_death,
        MessageLog.add]
      exact ⟨_, _, _, rfl⟩
    | Monster =>
      simp only [Object.take_damage, Object.apply_damage, Object.death_check,
        hf, if_neg hd, hle, if_true, DeathCallback.callback, hv, monster_death,
        MessageLog.add]
      exact ⟨_, _, _, rfl⟩

/-- C2 witness: the amended theorem applied to the already-dead player, with
zero further damage. -/
theorem C2_take_damage_reinvocation_witness :
    ∃ o2 msg c, deadPlayer.take_damage 0 gs0 =
      some (o2, { gs0 with log := gs0.log ++ [(msg, c)] }, some 5) :=
  (C2_take_damage_reinvocation deadPlayer 0 gs0).2
    { basePlayerFighter with hp := -2 } rfl rfl (by decide) (by decide)

/-! ## C3 -/

/-- C3: for an attack between two Fighter-bearing entities with
`damage = power(attacker) - defense(target)`: if `damage > 0` the target's hp
immediately after the damage-application step has decreased by exactly
`damage`, and the log records "{attacker} attacks {target} for {damage} hit
points." at the next log position; if `damage ≤ 0` the attack returns with
attacker, target (hp in particular) unchanged, appends exactly
"{attacker} attacks {target} but it has no effect!", and never evaluates the
death transition. -/
theorem C3_attack_resolution (a t : Object) (gs : GameState)
    (fa ft : Fighter) (damage : Int) (ha : a.fighter = some fa)
    (ht : t.fighter = some ft) (hd : damage = a.power gs - t.defense gs) :
    (0 < damage →
      (t.apply_damage damage).fighter.map Fighter.hp = some (ft.hp - damage) ∧
      ∃ a2 t2 gs2, a.attack t gs = some (a2, t2, gs2) ∧
        gs2.log[gs.log.length]? = some
          (a.name ++ " attacks " ++ t.name ++ " for " ++ toString damage
            ++ " hit points.", Color.WHITE)) ∧
    (damage ≤ 0 →
      a.attack t gs = some (a, t,
        { gs with log := gs.log ++
            [(a.name ++ " attacks " ++ t.name ++ " but it has no effect!",
              Color.WHITE)] })) := by
  constructor
  · intro hpos
    constructor
    · simp [Object.apply_damage, ht, if_pos hpos]
    · by_cases hdie : ft.hp - damage ≤ 0
      · cases hv : ft.on_death with
        | Player =>
          simp only [Object.attack, ← hd, if_pos hpos, Object.take_damage,
            Object.apply_damage, Object.death_check, ht, hdie, if_true,
            DeathCallback.callback, hv, player_death, ha, MessageLog.add]
          refine ⟨_, _, _, rfl, ?_⟩
          rw [List.getElem?_append_left (by simp), List.getElem?_concat_length]
        | Monster =>
          simp only [Object.attack, ← hd, if_pos hpos, Object.take_damage,
            Object.apply_damage, Object.death_check, ht, hdie, if_true,
            DeathCallback.callback, hv, monster_death, ha, MessageLog.add]
          refine ⟨_, _, _, rfl, ?_⟩
          rw [List.getElem?_append_left (by simp), List.getElem?_concat_length]
      · simp only [Object.attack, ← hd, if_pos hpos, Object.take_damage,
          Object.apply_damage, Object.death_check, ht, if_neg hdie,
          MessageLog.add]
        refine ⟨_, _, _, rfl, ?_⟩
        rw [List.getElem?_concat_length]
  · intro hneg
    simp only [Object.attack, ← hd, if_neg (not_lt.mpr hneg), MessageLog.add]

/-- C3 witness: the concrete monster (power 3) attacking the concrete player
(defense 0, hp 1): the damage branch applies with damage 3. -/
theorem C3_attack_resolution_witness :
    (cPlayer.apply_damage 3).fighter.map Fighter.hp
        = some (basePlayerFighter.hp - 3) ∧
      ∃ a2 t2 gs2, cMonster.attack cPlayer gs0 = some (a2, t2, gs2) ∧
        gs2.log[gs0.log.length]? = some
          (cMonster.name ++ " attacks " ++ cPlayer.name ++ " for "
            ++ toString (3 : Int) ++ " hit points.", Color.WHITE) :=
  (C3_attack_resolution cMonster cPlayer gs0 cMonsterFighter
    basePlayerFighter 3 rfl rfl (by decide)).1 (by decide)

/-! ## C4 -/

/-- C4: when the death transition fires for a monster (Fighter present with
Monster variant, lethal damage), afterwards `blocks = false`,
`fighter = None`, `ai = None`, `name = "remains of {orig}"`, the glyph is the
corpse marker, `alive = false`, and the xp returned to the caller is the
Fighter's xp captured immediately before the component was cleared. -/
theorem C4_monster_death_post (m : Object) (gs : GameState) (f : Fighter)
    (damage : Int) (hf : m.fighter = some f)
    (hv : f.on_death = DeathCallback.Monster) (hdmg : 0 < damage)
    (hlethal : f.hp - damage ≤ 0) :
    m.take_damage damage gs = some
      ({ m with
         alive := false
         chr := '%'
         color := Color.DARK_RED
         blocks := false
         fighter := none
         ai := none
         name := "remains of " ++ m.name },
       { gs with log := gs.log ++
           [(m.name ++ " is dead! You gain " ++ toString f.xp ++ " XP",
             Color.ORANGE)] },
       some f.xp) := by
  simp only [Object.take_damage, Object.apply_damage, Object.death_check, hf,
    if_pos hdmg, hlethal, if_true, DeathCallback.callback, hv, monster_death,
    MessageLog.add]

/-- C4 witness: the concrete monster killed by 10 damage. -/
theorem C4_monster_death_post_witness :
    cMonster.take_damage 10 gs0 = some
      ({ cMonster with
         alive := false
         chr := '%'
         color := Color.DARK_RED
         blocks := false
         fighter := none
         ai := none
         name := "remains of " ++ cMonster.name },
       { gs0 with log := gs0.log ++
           [(cMonster.name ++ " is dead! You gain "
               ++ toString cMonsterFighter.xp ++ " XP", Color.ORANGE)] },
       some cMonsterFighter.xp) :=
  C4_monster_death_post cMonster gs0 cMonsterFighter 10 rfl rfl
    (by decide) (by decide)

/-! ## C5 and C9 -/

/-- The three stat branches of the menu choice in `level_up`
(`src/game_state.rs`), applied to the already-xp-reduced Fighter; used to
state the level-up theorems (the `_` arm is only ever used at choice 2, the
source's `unreachable!()` arm being `none` in `level_up` itself). -/
def chosen_stat (choice : Nat) (f : Fighter) : Fighter :=
  match choice with
  | 0 => { f with base_max_hp := f.base_max_hp + 20, hp := f.hp + 20 }
  | 1 => { f with base_power := f.base_power + 1 }
  | _ => { f with base_defense := f.base_defense + 1 }

/-- C5: with `fighter.xp ≥ threshold(level)` where
`threshold(level) = 200 + level * 150`, one invocation of `level_up`
increments the level by exactly 1, applies exactly the one chosen stat branch,
and reduces xp by the threshold computed from the level before the increment;
the single invocation performs no second level-up regardless of the remaining
xp. -/
theorem C5_level_up_once (objects : List Object) (gs : GameState)
    (p : Object) (f : Fighter) (choice : Nat)
    (hp : objects[PLAYER]? = some p) (hf : p.fighter = some f)
    (hxp : LEVEL_UP_BASE + p.level * LEVEL_UP_FACTOR ≤ f.xp)
    (hc : choice < 3) :
    LEVEL_UP_BASE = 200 ∧ LEVEL_UP_FACTOR = 150 ∧
    level_up objects gs choice = some
      (objects.set PLAYER
        { p with
          level := p.level + 1
          fighter := some (chosen_stat choice
            { f with
              xp := f.xp - (LEVEL_UP_BASE + p.level * LEVEL_UP_FACTOR) }) },
       { gs with log := gs.log ++
           [("Your battle skills grow stringer! You reached level "
               ++ toString (p.level + 1) ++ "!", Color.YELLOW)] }) := by
  have hcond : LEVEL_UP_BASE + p.level * LEVEL_UP_FACTOR
      ≤ (p.fighter.map Fighter.xp).getD 0 := by
    rw [hf]
    simpa using hxp
  refine ⟨rfl, rfl, ?_⟩
  interval_cases choice <;>
    simp only [level_up, hp, hf, if_pos hcond, chosen_stat, MessageLog.add,
      Option.map_some', Option.getD_some] <;>
    rw [if_pos hxp]

/-- The concrete player Fighter of spec Scenario B: full hp, 360 xp. -/
def levelUpFighter : Fighter := { basePlayerFighter with hp := 100, xp := 360 }

/-- The concrete player about to level up (level 1, threshold 350, xp 360). -/
def levelUpPlayer : Object := { cPlayer with fighter := some levelUpFighter }

/-- C5 witness: Scenario B — level 1, xp 360 ≥ 350, choice 0. -/
theorem C5_level_up_once_witness :
    LEVEL_UP_BASE = 200 ∧ LEVEL_UP_FACTOR = 150 ∧
    level_up [levelUpPlayer] gs0 0 = some
      ([levelUpPlayer].set PLAYER
        { levelUpPlayer with
          level := levelUpPlayer.level + 1
          fighter := some (chosen_stat 0
            { levelUpFighter with
              xp := levelUpFighter.xp
                - (LEVEL_UP_BASE + levelUpPlayer.level * LEVEL_UP_FACTOR) }) },
       { gs0 with log := gs0.log ++
           [("Your battle skills grow stringer! You reached level "
               ++ toString (levelUpPlayer.level + 1) ++ "!",
             Color.YELLOW)] }) :=
  C5_level_up_once [levelUpPlayer] gs0 levelUpPlayer levelUpFighter 0
    rfl rfl (by decide) (by decide)

/-- C9: the claim says the level-up message is exactly "Your battle skills
grow stronger! You reached level {level}!".  The code writes "grow stringer"
(a typo), though `{level}` is indeed the new, incremented level: at level 1
with 360 xp the appended message is "Your battle skills grow stringer! You
reached level 2!", which differs from the claimed text. -/
theorem C9_level_up_message_typo :
    (level_up [levelUpPlayer] gs0 1).map (fun r => r.2.log) = some
      [("Your battle skills grow stringer! You reached level 2!",
        Color.YELLOW)] ∧
    ("Your battle skills grow stringer! You reached level 2!" : String) ≠
      "Your battle skills grow stronger! You reached level 2!" :=
  ⟨rfl, by decide⟩

/-! ## C6 -/

/-- A blocking corpse-like object with no Fighter component. -/
def noFighterObject : Object :=
  { x := 1, y := 1, name := "remains of microbe", blocks := false,
    alive := false, chr := '%', color := Color.DARK_RED, fighter := none,
    ai := none, item := none, always_visible := false, level := 1,
    equipment := none }

/-- A Fighter-bearing target with negative base defense and 1 hp, so that
even a Fighter-less attacker (power 0) deals lethal positive damage to it. -/
def fragileTarget : Object :=
  { cMonster with
    fighter := some { cMonsterFighter with hp := 1, base_defense := -1 } }

/-- A Fighter-bearing target with negative base defense but 10 hp, so that a
Fighter-less attacker deals positive yet non-lethal damage to it. -/
def sturdyTarget : Object :=
  { cMonster with
    fighter := some { cMonsterFighter with hp := 10, base_defense := -1 } }

/-- C6 counterexample: the claim says any `attack` in which attacker or
target lacks a Fighter is a fatal error, never a silently tolerated outcome.
Attacking the Fighter-less `noFighterObject` completes normally: damage
3 > 0 is even logged, `take_damage` finds no Fighter and does nothing, and
no panic path is reached. -/
theorem C6_counterexample :
    noFighterObject.fighter = none ∧
    (cMonster.attack noFighterObject gs0).isSome = true := ⟨rfl, rfl⟩

/-- C6 (amended): only one missing-Fighter configuration is fatal.  An
attack on a Fighter-less target always completes, logging one message and
changing nothing else; an attack by a Fighter-less attacker is fatal (the
xp-credit `unwrap`) exactly when the damage is positive and lethal to the
target: with non-positive damage it completes with only the no-effect
message appended, and with positive but non-lethal damage it completes with
the hp reduction and the attack message — never a panic. -/
theorem C6_attack_missing_fighter (a t : Object) (gs : GameState) :
    (t.fighter = none →
      ∃ msg, a.attack t gs = some (a, t,
        { gs with log := MessageLog.add gs.log msg Color.WHITE })) ∧
    (∀ ft : Fighter, a.fighter = none → t.fighter = some ft →
      0 < a.power gs - t.defense gs →
      ft.hp - (a.power gs - t.defense gs) ≤ 0 →
      a.attack t gs = none) ∧
    (a.fighter = none → a.power gs - t.defense gs ≤ 0 →
      a.attack t gs = some (a, t,
        { gs with log := MessageLog.add gs.log (a.name ++ " attacks "
            ++ t.name ++ " but it has no effect!") Color.WHITE })) ∧
    (∀ ft : Fighter, a.fighter = none → t.fighter = some ft →
      0 < a.power gs - t.defense gs →
      0 < ft.hp - (a.power gs - t.defense gs) →
      a.attack t gs = some (a,
        { t with
          fighter := some
            { ft with hp := ft.hp - (a.power gs - t.defense gs) } },
        { gs with log := MessageLog.add gs.log (a.name ++ " attacks "
            ++ t.name ++ " for " ++ toString (a.power gs - t.defense gs)
            ++ " hit points.") Color.WHITE })) := by
  refine ⟨fun htn => ?_, fun ft han htf hdmg hlethal => ?_,
    fun han hle => ?_, fun ft han htf hdmg hsurvive => ?_⟩
  · by_cases hdmg : 0 < a.power gs - t.defense gs
    · refine ⟨a.name ++ " attacks " ++ t.name ++ " for "
        ++ toString (a.power gs - t.defense gs) ++ " hit points.", ?_⟩
      simp only [Object.attack, if_pos hdmg, Object.take_damage,
        Object.apply_damage, Object.death_check, htn]
    · refine ⟨a.name ++ " attacks " ++ t.name ++ " but it has no effect!", ?_⟩
      simp only [Object.attack, if_neg hdmg]
  · cases hv : ft.on_death with
    | Player =>
      simp only [Object.attack, if_pos hdmg, Object.take_damage,
        Object.apply_damage, Object.death_check, htf, if_pos hdmg, hlethal,
        if_true, DeathCallback.callback, hv, player_death, han]
    | Monster =>
      simp only [Object.attack, if_pos hdmg, Object.take_damage,
        Object.apply_damage, Object.death_check, htf, if_pos hdmg, hlethal,
        if_true, DeathCallback.callback, hv, monster_death, han]
  · simp only [Object.attack, if_neg (not_lt.mpr hle)]
  · simp only [Object.attack, if_pos hdmg, Object.take_damage,
      Object.apply_damage, Object.death_check, htf, if_pos hdmg,
      if_neg (not_le.mpr hsurvive)]

/-- C6 witness: the tolerated cases (monster attacks a Fighter-less object;
Fighter-less attacker with non-positive damage against the player; and with
positive non-lethal damage against the sturdy target) and the one actual
fatal case (Fighter-less attacker kills a fragile target). -/
theorem C6_attack_missing_fighter_witness :
    (∃ msg, cMonster.attack noFighterObject gs0 = some
      (cMonster, noFighterObject,
        { gs0 with log := MessageLog.add gs0.log msg Color.WHITE })) ∧
    noFighterObject.attack fragileTarget gs0 = none ∧
    noFighterObject.attack cPlayer gs0 = some (noFighterObject, cPlayer,
      { gs0 with log := MessageLog.add gs0.log (noFighterObject.name
          ++ " attacks " ++ cPlayer.name
          ++ " but it has no effect!") Color.WHITE }) ∧
    noFighterObject.attack sturdyTarget gs0 = some (noFighterObject,
      { sturdyTarget with
        fighter := some
          { cMonsterFighter with hp := 10 - 1, base_defense := -1 } },
      { gs0 with log := MessageLog.add gs0.log (noFighterObject.name
          ++ " attacks " ++ sturdyTarget.name ++ " for "
          ++ toString (1 : Int) ++ " hit points.") Color.WHITE }) :=
  ⟨(C6_attack_missing_fighter cMonster noFighterObject gs0).1 rfl,
   (C6_attack_missing_fighter noFighterObject fragileTarget gs0).2.1
     { cMonsterFighter with hp := 1, base_defense := -1 } rfl rfl
     (by decide) (by decide),
   (C6_attack_missing_fighter noFighterObject cPlayer gs0).2.2.1 rfl
     (by decide),
   (C6_attack_missing_fighter noFighterObject sturdyTarget gs0).2.2.2
     { cMonsterFighter with hp := 10, base_defense := -1 } rfl rfl
     (by decide) (by decide)⟩

/-! ## C7 -/

/-- Setting an index of a list to the element already stored there leaves
the list unchanged. -/
theorem list_set_self (l : List Object) (n : Nat) (o : Object)
    (h : l[n]? = some o) : l.set n o = l := by
  induction l generalizing n with
  | nil => simp at h
  | cons a l ih =>
    cases n with
    | zero =>
      rw [List.getElem?_cons_zero, Option.some_inj] at h
      rw [← h]
      rfl
    | succ n =>
      rw [List.getElem?_cons_succ] at h
      simp [ih n h]

/-- C7: invoking `move_towards` with the target equal to the entity's own
position leaves the object vector entirely unchanged and does not fault:
the zero-distance division produces NaN, the saturating cast turns the step
into (0, 0), and `move_by` with a zero delta either drops the move (blocked)
or rewrites the identical position. -/
theorem C7_move_towards_self (is_blocked : List Object → Int → Int → Bool)
    (objects : List Object) (id : Nat) (o : Object)
    (h : objects[id]? = some o) :
    move_towards is_blocked objects id o.x o.y = some objects := by
  simp only [move_towards, h, sub_self]
  have hstep : f32_unit_step 0 (0 * 0 + 0 * 0) = 0 := by
    simp [f32_unit_step]
  rw [hstep]
  simp only [move_by, h, add_zero]
  by_cases hb : is_blocked objects o.x o.y
  · rw [if_pos hb]
  · rw [if_neg hb]
    have : o.set_pos o.x o.y = o := rfl
    rw [this, list_set_self objects id o h]

/-- C7 witness: the concrete player standing still. -/
theorem C7_move_towards_self_witness :
    move_towards (fun _ _ _ => false) [cPlayer] 0 cPlayer.x cPlayer.y
      = some [cPlayer] :=
  C7_move_towards_self (fun _ _ _ => false) [cPlayer] 0 cPlayer rfl

/-! ## C10 -/

/-- C10: calling `player_move_or_attack` with (dx, dy) = (0, 0) makes the
destination the player's own cell; because the player (index 0, iterated
first) carries a Fighter and stands on that cell, the target search returns
the player's own index, so the attack path reaches the dual-mutable-borrow
accessor `mut_two` with two equal indices — the fatal rejection — instead of
resolving as a harmless no-op. -/
theorem C10_zero_delta_self_attack
    (is_blocked : List Object → Int → Int → Bool) (p : Object)
    (rest : List Object) (gs : GameState) (hf : p.fighter.isSome = true) :
    position (fun o => o.fighter.isSome && (o.x == p.x + 0 && o.y == p.y + 0))
        (p :: rest) = some PLAYER ∧
    player_move_or_attack is_blocked (p :: rest) gs 0 0 = none := by
  obtain ⟨fp, hfp⟩ := Option.isSome_iff_exists.mp hf
  constructor
  · simp [position, hfp, PLAYER]
  · simp only [player_move_or_attack, PLAYER, List.getElem?_cons_zero]
    simp [position, hfp, mut_two, PLAYER]

/-- C10 witness: the concrete player alone on the map, `dx = dy = 0`. -/
theorem C10_zero_delta_self_attack_witness :
    position
        (fun o => o.fighter.isSome
          && (o.x == cPlayer.x + 0 && o.y == cPlayer.y + 0)) [cPlayer]
      = some PLAYER ∧
    player_move_or_attack (fun _ _ _ => false) [cPlayer] gs0 0 0 = none :=
  C10_zero_delta_self_attack (fun _ _ _ => false) cPlayer [] gs0 rfl

/-! ## C8 -/

/-- The trace of ids on which `ai_loop` invoked the AI collaborator is a
sublist of the id list it iterates over. -/
theorem ai_loop_trace_sublist
    (step : Nat → List Object → GameState → List Object × GameState)
    (ids : List Nat) (objects : List Object) (gs : GameState)
    (o2 : List Object) (g2 : GameState) (tr : List Nat)
    (h : ai_loop step ids objects gs = some (o2, g2, tr)) :
    tr.Sublist ids := by
  induction ids generalizing objects gs o2 g2 tr with
  | nil =>
    simp only [ai_loop, Option.some_inj, Prod.mk.injEq] at h
    rw [← h.2.2]
  | cons id rest ih =>
    rw [ai_loop] at h
    cases ho : objects[id]? with
    | none => simp [ho] at h
    | some obj =>
      simp only [ho] at h
      by_cases hai : obj.ai.isSome
      · rw [if_pos hai] at h
        cases hrec : ai_loop step rest (step id objects gs).1
            (step id objects gs).2 with
        | none => rw [hrec] at h; exact absurd h (by simp)
        | some r =>
          rw [hrec] at h
          obtain ⟨o3, g3, tr3⟩ := r
          simp only [Option.some_inj, Prod.mk.injEq] at h
          rw [← h.2.2]
          exact (ih _ _ _ _ _ hrec).cons₂ id
      · rw [if_neg hai] at h
        exact (ih _ _ _ _ _ h).cons id

/-- C8: in one tick, AI entities are evaluated only after the player phase
(level-up check plus fully-resolved player action) has produced its state;
no AI entity is evaluated on Exit, on DidntTakeTurn, or when the player is
dead; when the player is alive and took a turn, the AI loop runs on exactly
the post-player-action state over ids `0..len`; the ids actually invoked
form a sublist of the ascending range (hence strictly ascending, each at most
once); and an id whose AI component is absent when its turn comes is skipped
with no effect. -/
theorem C8_tick_ai_ordering
    (hk : List Object → GameState → List Object × GameState × PlayerAction)
    (step : Nat → List Object → GameState → List Object × GameState)
    (choice : Nat) (objects o2 : List Object) (gs g2 : GameState)
    (action : PlayerAction)
    (hphase : player_phase hk choice objects gs = some (o2, g2, action)) :
    (action = PlayerAction.Exit →
      run_tick hk step choice objects gs = some (o2, g2, action, [])) ∧
    (∀ p, o2[PLAYER]? = some p → action = PlayerAction.DidntTakeTurn →
      run_tick hk step choice objects gs = some (o2, g2, action, [])) ∧
    (∀ p, o2[PLAYER]? = some p → p.alive = false →
      action ≠ PlayerAction.Exit →
      run_tick hk step choice objects gs = some (o2, g2, action, [])) ∧
    (∀ p, o2[PLAYER]? = some p → p.alive = true →
      action = PlayerAction.TookTurn →
      run_tick hk step choice objects gs =
        (ai_loop step (List.range o2.length) o2 g2).map
          (fun r => (r.1, r.2.1, action, r.2.2))) ∧
    (∀ o3 g3 tr,
      ai_loop step (List.range o2.length) o2 g2 = some (o3, g3, tr) →
      tr.Sublist (List.range o2.length) ∧ tr.Chain' (· < ·)) ∧
    (∀ i rest o g obj, o[i]? = some obj → obj.ai = none →
      ai_loop step (i :: rest) o g = ai_loop step rest o g) := by
  refine ⟨fun ha => ?_, fun p hp ha => ?_, fun p hp hdead hne => ?_,
    fun p hp halive ha => ?_, fun o3 g3 tr hai => ?_,
    fun i rest o g obj ho hnone => ?_⟩
  · subst ha
    simp [run_tick, hphase]
  · subst ha
    simp [run_tick, hphase, hp]
  · simp only [run_tick, hphase, if_neg hne, hp]
    simp [hdead]
  · subst ha
    simp only [run_tick, hphase]
    rw [if_neg (by simp)]
    simp only [hp, halive]
    rw [if_pos (by simp)]
    cases hai : ai_loop step (List.range o2.length) o2 g2 with
    | none => simp
    | some r => obtain ⟨a, b, c⟩ := r; simp
  · have hsub := ai_loop_trace_sublist step _ o2 g2 o3 g3 tr hai
    exact ⟨hsub, ((List.pairwise_lt_range _).sublist hsub).chain'⟩
  · rw [ai_loop]
    simp only [ho]
    rw [if_neg (by simp [hnone])]

/-- A trivial key handler: the player always takes a normal turn. -/
def hk0 : List Object → GameState → List Object × GameState × PlayerAction :=
  fun objects gs => (objects, gs, PlayerAction.TookTurn)

/-- A trivial AI step: no state change. -/
def step0 : Nat → List Object → GameState → List Object × GameState :=
  fun _ objects gs => (objects, gs)

/-- C8 witness: one tick with the lone live player (xp below the level-up
threshold), a trivial key handler and a trivial AI step. -/
theorem C8_tick_ai_ordering_witness :
    (PlayerAction.TookTurn = PlayerAction.Exit →
      run_tick hk0 step0 0 [cPlayer] gs0 =
        some ([cPlayer], gs0, PlayerAction.TookTurn, [])) ∧
    (∀ p, [cPlayer][PLAYER]? = some p →
      PlayerAction.TookTurn = PlayerAction.DidntTakeTurn →
      run_tick hk0 step0 0 [cPlayer] gs0 =
        some ([cPlayer], gs0, PlayerAction.TookTurn, [])) ∧
    (∀ p, [cPlayer][PLAYER]? = some p → p.alive = false →
      PlayerAction.TookTurn ≠ PlayerAction.Exit →
      run_tick hk0 step0 0 [cPlayer] gs0 =
        some ([cPlayer], gs0, PlayerAction.TookTurn, [])) ∧
    (∀ p, [cPlayer][PLAYER]? = some p → p.alive = true →
      PlayerAction.TookTurn = PlayerAction.TookTurn →
      run_tick hk0 step0 0 [cPlayer] gs0 =
        (ai_loop step0 (List.range [cPlayer].length) [cPlayer] gs0).map
          (fun r => (r.1, r.2.1, PlayerAction.TookTurn, r.2.2))) ∧
    (∀ o3 g3 tr,
      ai_loop step0 (List.range [cPlayer].length) [cPlayer] gs0
        = some (o3, g3, tr) →
      tr.Sublist (List.range [cPlayer].length) ∧ tr.Chain' (· < ·)) ∧
    (∀ i rest o g obj, o[i]? = some obj → obj.ai = none →
      ai_loop step0 (i :: rest) o g = ai_loop step0 rest o g) :=
  C8_tick_ai_ordering hk0 step0 0 [cPlayer] [cPlayer] gs0 gs0
    PlayerAction.TookTurn rfl

end Roguelike
